import Mathlib

/-!
Verification of the execution-protocol polling API (read-only, tenant-isolated
REST prototype).

Shallow embedding of:
* the `execution_protocols` rows and the `ExecutionProtocol` domain entity
  (src/domain/executionProtocol.js),
* `PostgresExecutionProtocolRepository` (getAllForPolling, getById,
  getSnapshotById) — the SQL queries are modelled as list filtering over the
  stored rows, with `ORDER BY updated_at ASC` modelled by `List.insertionSort`
  on the `updated_at` key (the query imposes no tie-break; a separate relation
  `sqlOrderByUpdatedAt` captures exactly the constraint the SQL guarantees),
* `ExecutionProtocolController` (getAllForPolling, getById, getSnapshotById),
  including the JavaScript truthiness checks (`if (!tenantId)`,
  `if (updatedAfter)`), `parseInt(x, 10) || default`, `Math.min`/`Math.max`
  normalization, and `isValidUUID`.

Timestamps are modelled as `Nat` (epoch milliseconds).  Snapshots are opaque
documents modelled as `String`.  Storage failure (the promise rejection caught
by the controllers' try/catch) is modelled by an `available` flag on the
store; a PostgreSQL `LIMIT`/`OFFSET` with a negative argument raises an error,
modelled by the corresponding `DbError` constructors.

JavaScript `new Date(s)` timestamp parsing is kept abstract: the controller is
parameterised by `parseTs : String → Option Nat` (`none` models an invalid
date, i.e. `isNaN(new Date(s).getTime())`).
-/

namespace RestApi

/-- A row of the `execution_protocols` table (snake_case column names as in
the schema of src/db.js; `snapshot` is `NOT NULL JSONB`, modelled opaquely). -/
structure ProtocolRow where
  id : String
  site_id : String
  plant_id : String
  tenant_id : String
  status : String
  created_at : Nat
  closed_at : Nat
  updated_at : Nat
  snapshot : String
deriving DecidableEq, Repr

/-- The backing store: the table contents plus an availability flag modelling
whether `pool.query` succeeds (its rejection is caught by the controllers and
mapped to an internal-error response). -/
structure Store where
  records : List ProtocolRow
  available : Bool
deriving DecidableEq, Repr

/-- Domain entity (src/domain/executionProtocol.js).  The list endpoint
constructs it with `snapshot: null`, hence `Option String`. -/
structure ExecutionProtocol where
  id : String
  siteId : String
  plantId : String
  tenantId : String
  status : String
  createdAt : Nat
  closedAt : Nat
  updatedAt : Nat
  snapshot : Option String
deriving DecidableEq, Repr

/-- `ExecutionProtocol.fromRepositoryData`: maps a row (snake_case) to the
domain entity; the caller chooses which snapshot value accompanies the row
(`null` for the list query, the stored document for `getById`). -/
def ExecutionProtocol.fromRepositoryData (row : ProtocolRow)
    (snapshot : Option String) : ExecutionProtocol :=
  { id := row.id
    siteId := row.site_id
    plantId := row.plant_id
    tenantId := row.tenant_id
    status := row.status
    createdAt := row.created_at
    closedAt := row.closed_at
    updatedAt := row.updated_at
    snapshot := snapshot }

/-- The list-metadata projection (`toListMetadata` in the domain model):
`{id, siteId, plantId, status, closedAt, updatedAt}` — no snapshot field. -/
structure ListMetadata where
  id : String
  siteId : String
  plantId : String
  status : String
  closedAt : Nat
  updatedAt : Nat
deriving DecidableEq, Repr

/-- `ExecutionProtocol.toListMetadata`. -/
def ExecutionProtocol.toListMetadata (p : ExecutionProtocol) : ListMetadata :=
  { id := p.id
    siteId := p.siteId
    plantId := p.plantId
    status := p.status
    closedAt := p.closedAt
    updatedAt := p.updatedAt }

instance {ε α : Type} [DecidableEq ε] [DecidableEq α] :
    DecidableEq (Except ε α)
  | .ok a, .ok b =>
    if h : a = b then .isTrue (congrArg Except.ok h)
    else .isFalse fun he => h (Except.ok.inj he)
  | .error a, .error b =>
    if h : a = b then .isTrue (congrArg Except.error h)
    else .isFalse fun he => h (Except.error.inj he)
  | .ok _, .error _ => .isFalse fun he => Except.noConfusion he
  | .error _, .ok _ => .isFalse fun he => Except.noConfusion he

/-- Errors raised by the modelled PostgreSQL layer: an unavailable pool, or a
negative `LIMIT` / `OFFSET` argument (PostgreSQL rejects both). -/
inductive DbError where
  | unavailable
  | negativeLimit
  | negativeOffset
deriving DecidableEq, Repr

/-- Options object of `getAllForPolling` (`{ tenantId, updatedAfter, limit = 50,
offset = 0 }`).  `updatedAfter = none` models a JS-falsy value (absent or the
empty string), for which the repository adds no cursor condition. -/
structure PollingOptions where
  tenantId : String
  updatedAfter : Option Nat
  limit : Int := 50
  offset : Int := 0
deriving DecidableEq, Repr

/-- The `WHERE` clause of both polling queries:
`tenant_id = $1 AND status = $2(='CLOSED')` and, when a cursor is supplied,
`updated_at > $3` (strict). -/
def matchesPolling (tenantId : String) (updatedAfter : Option Nat)
    (r : ProtocolRow) : Bool :=
  r.tenant_id == tenantId && r.status == "CLOSED" &&
    (match updatedAfter with
     | none => true
     | some t => decide (t < r.updated_at))

/-- The comparison used by `ORDER BY updated_at ASC`. -/
def updatedLe (a b : ProtocolRow) : Prop :=
  a.updated_at ≤ b.updated_at

instance : DecidableRel updatedLe :=
  fun a b => inferInstanceAs (Decidable (a.updated_at ≤ b.updated_at))

instance : IsTotal ProtocolRow updatedLe :=
  ⟨fun a b => Nat.le_total a.updated_at b.updated_at⟩

instance : IsTrans ProtocolRow updatedLe :=
  ⟨fun _ _ _ hab hbc => Nat.le_trans hab hbc⟩

/-- Executable model of `ORDER BY updated_at ASC`: some ordering of the rows
that is ascending in `updated_at`.  (The SQL fixes no tie-break; any
permutation sorted on `updated_at` is an admissible result — see
`sqlOrderByUpdatedAt` below.) -/
def sortByUpdatedAt (rows : List ProtocolRow) : List ProtocolRow :=
  List.insertionSort updatedLe rows

/-- Exactly the guarantee `ORDER BY updated_at ASC` gives about a result set:
it is a permutation of the matched rows, ascending in `updated_at`.  Nothing
constrains the relative order of rows sharing an `updated_at` value. -/
def sqlOrderByUpdatedAt (rows result : List ProtocolRow) : Prop :=
  rows.Perm result ∧ result.Pairwise updatedLe

/-- Result object of the repository's `getAllForPolling`:
`{ data: protocols, total }`. -/
structure PollResult where
  data : List ExecutionProtocol
  total : Nat
deriving DecidableEq, Repr

/-- `PostgresExecutionProtocolRepository.getAllForPolling`:
caps `limit` at 100 (`Math.min(limit, 100)`), filters by tenant, CLOSED
status and optional strict `updated_at` cursor, orders ascending by
`updated_at`, applies `LIMIT`/`OFFSET`, and separately counts all matching
rows (same filter, no limit/offset) for `total`.  Rows are mapped to domain
objects with `snapshot: null`. -/
def getAllForPolling (store : Store) (opts : PollingOptions) :
    Except DbError PollResult :=
  if !store.available then .error .unavailable
  else if min opts.limit 100 < 0 then .error .negativeLimit
  else if opts.offset < 0 then .error .negativeOffset
  else
    .ok { data := (((sortByUpdatedAt (store.records.filter
            (matchesPolling opts.tenantId opts.updatedAfter))).drop
            opts.offset.toNat).take (min opts.limit 100).toNat).map
            (fun row => .fromRepositoryData row none)
          total := (store.records.filter
            (matchesPolling opts.tenantId opts.updatedAfter)).length }

/-- The shared single-row lookup of `getById`/`getSnapshotById`:
`WHERE id = $1 AND tenant_id = $2 AND status = 'CLOSED'` (the id is the table
primary key, so at most one row matches in a well-formed store). -/
def findClosedRow (store : Store) (id tenantId : String) : Option ProtocolRow :=
  store.records.find? fun r =>
    r.id == id && r.tenant_id == tenantId && r.status == "CLOSED"

/-- `PostgresExecutionProtocolRepository.getById`: returns the full entity
(snapshot included) or `none` when no row passes the tenant+status filter. -/
def getById (store : Store) (id tenantId : String) :
    Except DbError (Option ExecutionProtocol) :=
  if !store.available then .error .unavailable
  else
    match findClosedRow store id tenantId with
    | none => .ok none
    | some row => .ok (some (.fromRepositoryData row (some row.snapshot)))

/-- `PostgresExecutionProtocolRepository.getSnapshotById`: returns only the
snapshot document, same filter as `getById`. -/
def getSnapshotById (store : Store) (id tenantId : String) :
    Except DbError (Option String) :=
  if !store.available then .error .unavailable
  else
    match findClosedRow store id tenantId with
    | none => .ok none
    | some row => .ok (some row.snapshot)

/-- Hex digit, case-insensitive (the UUID regex carries the `/i` flag). -/
def isHexChar (c : Char) : Bool :=
  c.isDigit || (decide ('a' ≤ c) && decide (c ≤ 'f')) ||
    (decide ('A' ≤ c) && decide (c ≤ 'F'))

/-- `isValidUUID` (src/utils/validation.js): matches
`/^[0-9a-f]\x7b8\x7d-[0-9a-f]\x7b4\x7d-4[0-9a-f]\x7b3\x7d-[89ab][0-9a-f]\x7b3\x7d-[0-9a-f]\x7b12\x7d$/i`:
length 36, hyphens at indices 8, 13, 18, 23, version digit `4` at index 14,
variant character in `[89abAB]` at index 19, hex everywhere else. -/
def isValidUUID (s : String) : Bool :=
  let cs := s.toList
  cs.length == 36 &&
    (List.range 36).all fun i =>
      let c := cs.getD i ' '
      if i == 8 || i == 13 || i == 18 || i == 23 then c == '-'
      else if i == 14 then c == '4'
      else if i == 19 then
        c == '8' || c == '9' || c == 'a' || c == 'b' || c == 'A' || c == 'B'
      else isHexChar c

/-- Value of a decimal-digit string (used only on `takeWhile isDigit` output). -/
def digitsToNat (cs : List Char) : Nat :=
  cs.foldl (fun acc c => acc * 10 + (c.toNat - 48)) 0

/-- JavaScript `parseInt(s, 10)`: skip leading whitespace, optional sign, then
the longest digit prefix; `none` models `NaN` (no digits). -/
def jsParseInt (s : String) : Option Int :=
  let cs := s.toList.dropWhile Char.isWhitespace
  let signed : Int × List Char :=
    match cs with
    | '-' :: r => (-1, r)
    | '+' :: r => (1, r)
    | r => (1, r)
  let digits := signed.2.takeWhile Char.isDigit
  if digits.isEmpty then none
  else some (signed.1 * (digitsToNat digits : Int))

/-- `parseInt(raw, 10) || dflt`: a missing parameter takes the destructuring
default `dflt` (a number, for which `parseInt` is the identity here); `NaN`
and `0` are falsy, so both fall back to `dflt`. -/
def jsParseIntOr (raw : Option String) (dflt : Int) : Int :=
  match raw with
  | none => dflt
  | some s =>
    match jsParseInt s with
    | none => dflt
    | some n => if n == 0 then dflt else n

/-- Query parameters of the list endpoint, all optional strings. -/
structure ListQuery where
  updatedAfter : Option String := none
  limit : Option String := none
  offset : Option String := none
deriving DecidableEq, Repr

/-- Outcome of the list controller, one constructor per `res.status(...)`
branch; `ok` carries the data of the 200 body
(`protocols` array and the `pagination` fields). -/
inductive ListResult where
  | unauthorized (error message : String)
  | badRequest (error message : String)
  | ok (protocols : List ListMetadata) (limit offset : Int) (total : Nat)
  | internalError (error message : String)
deriving DecidableEq, Repr

/-- The 400 message for a malformed cursor. -/
def badCursorMessage : String :=
  "Invalid updatedAfter format. Use ISO 8601 timestamp (e.g., 2026-02-15T10:00:00Z)"

/-- `ExecutionProtocolController.getAllForPolling`.

`parseTs` models `new Date(s).getTime()` (`none` = `NaN`).  Steps, in source
order: tenant-context truthiness check (`undefined` or the empty string fails
with 401); cursor validation — skipped when `updatedAfter` is JS-falsy (absent
or the empty string, which is thereby silently treated as no cursor), 400 when
present, non-empty and unparsable; `parseInt`-based limit/offset
normalization (`Math.min(parseInt(limit,10)||50, 100)`,
`Math.max(parseInt(offset,10)||0, 0)`); repository call (a rejection is
caught and mapped to 500); projection of each row to list metadata. -/
def controllerGetAllForPolling (parseTs : String → Option Nat) (store : Store)
    (tenantId : Option String) (q : ListQuery) : ListResult :=
  match tenantId with
  | none => .unauthorized "Unauthorized" "Missing tenant context"
  | some tid =>
    if tid == "" then .unauthorized "Unauthorized" "Missing tenant context"
    else
      let cursorCheck : Option (Option Nat) :=
        match q.updatedAfter with
        | none => some none
        | some s =>
          if s == "" then some none
          else
            match parseTs s with
            | none => none
            | some t => some (some t)
      match cursorCheck with
      | none => .badRequest "Bad request" badCursorMessage
      | some cursor =>
        let parsedLimit := min (jsParseIntOr q.limit 50) 100
        let parsedOffset := max (jsParseIntOr q.offset 0) 0
        match getAllForPolling store
            { tenantId := tid, updatedAfter := cursor,
              limit := parsedLimit, offset := parsedOffset } with
        | .error _ =>
          .internalError "Internal server error"
            "Failed to retrieve execution protocols"
        | .ok result =>
          .ok (result.data.map ExecutionProtocol.toListMetadata)
            parsedLimit parsedOffset result.total

/-- Outcome of the two snapshot controllers, one constructor per response
branch (401 / 404 / 200 / 500). -/
inductive SnapshotResult where
  | unauthorized (error message : String)
  | notFound (error message : String)
  | ok (snapshot : String)
  | internalError (error message : String)
deriving DecidableEq, Repr

/-- HTTP status code of a `SnapshotResult`. -/
def SnapshotResult.statusCode : SnapshotResult → Nat
  | .unauthorized _ _ => 401
  | .notFound _ _ => 404
  | .ok _ => 200
  | .internalError _ _ => 500

/-- `ExecutionProtocolController.getById` (route `GET /:id`): tenant-context
truthiness check, UUID-format check failing with 404 (message
"Invalid protocol ID format"), then delegation to the repository's
`getSnapshotById`; a missing snapshot is 404 ("Execution protocol not
found"), a storage failure is 500 ("Failed to retrieve execution
protocol"), success returns the bare snapshot. -/
def controllerGetById (store : Store) (tenantId : Option String)
    (id : String) : SnapshotResult :=
  match tenantId with
  | none => .unauthorized "Unauthorized" "Missing tenant context"
  | some tid =>
    if tid == "" then .unauthorized "Unauthorized" "Missing tenant context"
    else if !isValidUUID id then
      .notFound "Not found" "Invalid protocol ID format"
    else
      match getSnapshotById store id tid with
      | .error _ =>
        .internalError "Internal server error"
          "Failed to retrieve execution protocol"
      | .ok none => .notFound "Not found" "Execution protocol not found"
      | .ok (some snap) => .ok snap

/-- `ExecutionProtocolController.getSnapshotById` (route `GET /:id/snapshot`):
textually identical to `getById` except for the 500 message
("Failed to retrieve execution protocol snapshot"). -/
def controllerGetSnapshotById (store : Store) (tenantId : Option String)
    (id : String) : SnapshotResult :=
  match tenantId with
  | none => .unauthorized "Unauthorized" "Missing tenant context"
  | some tid =>
    if tid == "" then .unauthorized "Unauthorized" "Missing tenant context"
    else if !isValidUUID id then
      .notFound "Not found" "Invalid protocol ID format"
    else
      match getSnapshotById store id tid with
      | .error _ =>
        .internalError "Internal server error"
          "Failed to retrieve execution protocol snapshot"
      | .ok none => .notFound "Not found" "Execution protocol not found"
      | .ok (some snap) => .ok snap

/-- Minimal JSON value model, used to state what the serialized response
bodies look like (in particular which keys the list body carries). -/
inductive Json where
  | str (s : String)
  | num (n : Int)
  | arr (elems : List Json)
  | obj (fields : List (String × Json))
deriving Repr

/-- Keys of a JSON object (empty for non-objects). -/
def Json.keys : Json → List String
  | .obj fields => fields.map Prod.fst
  | _ => []

/-- JSON rendering of a list-metadata item, field for field as built by
`toListMetadata` (timestamps rendered as their numeric model). -/
def ListMetadata.toJson (m : ListMetadata) : Json :=
  .obj [("id", .str m.id), ("siteId", .str m.siteId),
        ("plantId", .str m.plantId), ("status", .str m.status),
        ("closedAt", .num m.closedAt), ("updatedAt", .num m.updatedAt)]

/-- Serialization of the list controller's response (`res.status(...).json(...)`):
status code plus body.  The 200 body is
`{ protocols: [...], pagination: { limit, offset, total } }` exactly as in the
source; error bodies are `{ error, message }`. -/
def renderListResult : ListResult → Nat × Json
  | .unauthorized e m => (401, .obj [("error", .str e), ("message", .str m)])
  | .badRequest e m => (400, .obj [("error", .str e), ("message", .str m)])
  | .internalError e m => (500, .obj [("error", .str e), ("message", .str m)])
  | .ok ms lim off tot =>
    (200, .obj [("protocols", .arr (ms.map ListMetadata.toJson)),
                ("pagination", .obj [("limit", .num lim), ("offset", .num off),
                                     ("total", .num (tot : Int))])])

/-! Concrete sample data (shaped like the seed script's rows) used by
witnesses and counterexamples. -/

/-- A CLOSED record of tenant `tenant-acme`, updated at time 10. -/
def sampleRowT1 : ProtocolRow :=
  { id := "550e8400-e29b-41d4-a716-446655440001", site_id := "L3",
    plant_id := "T17", tenant_id := "tenant-acme", status := "CLOSED",
    created_at := 0, closed_at := 5, updated_at := 10, snapshot := "doc-1" }

/-- A second CLOSED record of tenant `tenant-acme`, updated at time 20. -/
def sampleRowT1b : ProtocolRow :=
  { id := "550e8400-e29b-41d4-a716-446655440002", site_id := "L7",
    plant_id := "T03", tenant_id := "tenant-acme", status := "CLOSED",
    created_at := 1, closed_at := 6, updated_at := 20, snapshot := "doc-2" }

/-- A CLOSED record of the other tenant `tenant-beta`, updated at time 15. -/
def sampleRowT2 : ProtocolRow :=
  { id := "550e8400-e29b-41d4-a716-446655440003", site_id := "L9",
    plant_id := "T11", tenant_id := "tenant-beta", status := "CLOSED",
    created_at := 2, closed_at := 7, updated_at := 15, snapshot := "doc-3" }

/-- A non-CLOSED (OPEN) record of tenant `tenant-acme`. -/
def sampleRowOpen : ProtocolRow :=
  { id := "550e8400-e29b-41d4-a716-446655440004", site_id := "L3",
    plant_id := "T17", tenant_id := "tenant-acme", status := "OPEN",
    created_at := 3, closed_at := 0, updated_at := 30, snapshot := "doc-4" }

/-- Store holding one record of each tenant, storage available. -/
def sampleStoreTwoTenants : Store := ⟨[sampleRowT1, sampleRowT2], true⟩

/-- Store holding the two `tenant-acme` CLOSED records. -/
def sampleStoreAcme : Store := ⟨[sampleRowT1, sampleRowT1b], true⟩

/-- Store holding an OPEN record next to a CLOSED one. -/
def sampleStoreWithOpen : Store := ⟨[sampleRowOpen, sampleRowT1], true⟩

/-! Inversion lemmas about the repository operations. -/

/-- A successful polling result is exactly a limit/offset window over some
`updated_at`-sorted ordering of the filtered rows, together with the full
filtered count. -/
theorem getAllForPolling_ok_inv {store : Store} {opts : PollingOptions}
    {res : PollResult} (h : getAllForPolling store opts = .ok res) :
    res = { data := (((sortByUpdatedAt (store.records.filter
              (matchesPolling opts.tenantId opts.updatedAfter))).drop
              opts.offset.toNat).take (min opts.limit 100).toNat).map
              (fun row => .fromRepositoryData row none)
            total := (store.records.filter
              (matchesPolling opts.tenantId opts.updatedAfter)).length } := by
  unfold getAllForPolling at h
  split at h
  · exact absurd h (by simp)
  · split at h
    · exact absurd h (by simp)
    · split at h
      · exact absurd h (by simp)
      · exact (Except.ok.injEq _ _ ▸ h).symm

/-- Every domain object in a polling result is the image of a stored row that
passes the tenant + CLOSED + cursor filter. -/
theorem mem_data_of_getAllForPolling {store : Store} {opts : PollingOptions}
    {res : PollResult} (h : getAllForPolling store opts = .ok res)
    {p : ExecutionProtocol} (hp : p ∈ res.data) :
    ∃ row ∈ store.records,
      matchesPolling opts.tenantId opts.updatedAfter row = true ∧
      p = .fromRepositoryData row none := by
  rw [getAllForPolling_ok_inv h] at hp
  obtain ⟨row, hrowmem, hrowp⟩ := List.mem_map.mp hp
  have hsorted : row ∈ sortByUpdatedAt (store.records.filter
      (matchesPolling opts.tenantId opts.updatedAfter)) :=
    (List.drop_sublist _ _).subset ((List.take_sublist _ _).subset hrowmem)
  have hfilter := (List.perm_insertionSort updatedLe _).subset hsorted
  obtain ⟨hmem, hmatch⟩ := List.mem_filter.mp hfilter
  exact ⟨row, hmem, hmatch, hrowp.symm⟩

/-- The items of a polling result are ascending in `updatedAt`. -/
theorem data_sorted_of_getAllForPolling {store : Store} {opts : PollingOptions}
    {res : PollResult} (h : getAllForPolling store opts = .ok res) :
    res.data.Pairwise (fun a b => a.updatedAt ≤ b.updatedAt) := by
  rw [getAllForPolling_ok_inv h]
  simp only
  rw [List.pairwise_map]
  have hsorted : (sortByUpdatedAt (store.records.filter
      (matchesPolling opts.tenantId opts.updatedAfter))).Pairwise
      updatedLe :=
    List.sorted_insertionSort updatedLe _
  exact List.Pairwise.sublist
    ((List.take_sublist _ _).trans (List.drop_sublist _ _)) hsorted

/-- The `total` of a polling result is the number of stored rows passing the
tenant + CLOSED + cursor filter (the limit/offset play no part in it). -/
theorem total_of_getAllForPolling {store : Store} {opts : PollingOptions}
    {res : PollResult} (h : getAllForPolling store opts = .ok res) :
    res.total = (store.records.filter
      (matchesPolling opts.tenantId opts.updatedAfter)).length := by
  rw [getAllForPolling_ok_inv h]

/-- Fields of the filter predicate, unfolded. -/
theorem matchesPolling_iff {tenantId : String} {updatedAfter : Option Nat}
    {r : ProtocolRow} :
    matchesPolling tenantId updatedAfter r = true ↔
      r.tenant_id = tenantId ∧ r.status = "CLOSED" ∧
        (∀ t, updatedAfter = some t → t < r.updated_at) := by
  unfold matchesPolling
  cases updatedAfter <;> simp [and_assoc]

/-- Maximum `updatedAt` across a poll response (0 for an empty response); the
cursor value the sync protocol tells consumers to advance to. -/
def maxUpdatedAt (ps : List ExecutionProtocol) : Nat :=
  ps.foldr (fun p acc => max p.updatedAt acc) 0

/-- Every returned item's `updatedAt` is bounded by `maxUpdatedAt`. -/
theorem updatedAt_le_maxUpdatedAt {p : ExecutionProtocol}
    {ps : List ExecutionProtocol} (hp : p ∈ ps) :
    p.updatedAt ≤ maxUpdatedAt ps := by
  induction ps with
  | nil => cases hp
  | cons q qs ih =>
    rcases List.mem_cons.mp hp with h | h
    · subst h; exact Nat.le_max_left _ _
    · exact Nat.le_trans (ih h) (Nat.le_max_right _ _)

/-- A successful single-row lookup comes from a stored row with the requested
id, the requesting tenant and CLOSED status. -/
theorem findClosedRow_some {store : Store} {id tenantId : String}
    {row : ProtocolRow} (h : findClosedRow store id tenantId = some row) :
    row ∈ store.records ∧ row.id = id ∧ row.tenant_id = tenantId ∧
      row.status = "CLOSED" := by
  have hmem := List.mem_of_find?_eq_some h
  have hpred := List.find?_some h
  simp only [Bool.and_eq_true, beq_iff_eq] at hpred
  exact ⟨hmem, hpred.1.1, hpred.1.2, hpred.2⟩

/-- When no stored row carries the requested id with the requesting tenant and
CLOSED status, the lookup is `none`. -/
theorem findClosedRow_none {store : Store} {id tenantId : String}
    (h : ∀ r ∈ store.records,
      ¬(r.id = id ∧ r.tenant_id = tenantId ∧ r.status = "CLOSED")) :
    findClosedRow store id tenantId = none := by
  apply List.find?_eq_none.mpr
  intro r hr
  have := h r hr
  simp only [Bool.and_eq_true, beq_iff_eq]
  tauto

/-- With the pool available, `getSnapshotById` never fails: it returns the
found snapshot or `none`. -/
theorem getSnapshotById_ok {store : Store} (hav : store.available = true)
    (id tenantId : String) :
    getSnapshotById store id tenantId =
      .ok ((findClosedRow store id tenantId).map ProtocolRow.snapshot) := by
  unfold getSnapshotById
  rw [hav]
  cases findClosedRow store id tenantId <;> rfl

/-- With the pool available, `getById` never fails: it returns the found
entity (with its snapshot) or `none`. -/
theorem getById_ok {store : Store} (hav : store.available = true)
    (id tenantId : String) :
    getById store id tenantId =
      .ok ((findClosedRow store id tenantId).map
        (fun row => .fromRepositoryData row (some row.snapshot))) := by
  unfold getById
  rw [hav]
  cases findClosedRow store id tenantId <;> rfl

/-- C1: for tenants T1 ≠ T2 and a record R owned by T1, the polling list under
T2's identity only ever contains T2-owned items and never one with R's id, the
repository snapshot lookup for R's id under T2 yields the not-found value, and
the controller's snapshot endpoint reports the uniform not-found response
(identical to the one for a nonexistent id). -/
theorem claim_tenant_isolation (store : Store) (t1 t2 : String)
    (r : ProtocolRow) (hmem : r ∈ store.records) (hown : r.tenant_id = t1)
    (hne : t1 ≠ t2)
    (huniq : ∀ r' ∈ store.records, r'.id = r.id → r' = r)
    (hav : store.available = true) (ht2 : t2 ≠ "")
    (hid : isValidUUID r.id = true) :
    (∀ opts res, opts.tenantId = t2 → getAllForPolling store opts = .ok res →
      ∀ p ∈ res.data, p.tenantId = t2 ∧ p.id ≠ r.id) ∧
    getSnapshotById store r.id t2 = .ok none ∧
    controllerGetSnapshotById store (some t2) r.id =
      .notFound "Not found" "Execution protocol not found" := by
  have hfind : findClosedRow store r.id t2 = none := by
    apply findClosedRow_none
    intro r' hr' ⟨hid', hten', _⟩
    exact hne ((hown.symm.trans (congrArg ProtocolRow.tenant_id
      (huniq r' hr' hid').symm)).trans hten')
  have hsnap : getSnapshotById store r.id t2 = .ok none := by
    rw [getSnapshotById_ok hav, hfind]; rfl
  refine ⟨?_, hsnap, ?_⟩
  · intro opts res hten hok p hp
    obtain ⟨row, hrowmem, hmatch, hpe⟩ := mem_data_of_getAllForPolling hok hp
    obtain ⟨hrowten, -, -⟩ := matchesPolling_iff.mp hmatch
    subst hpe
    refine ⟨hrowten.trans hten, fun hpid => ?_⟩
    have : row = r := huniq row hrowmem hpid
    subst this
    exact hne (hown.symm.trans (hrowten.trans hten))
  · simp only [controllerGetSnapshotById]
    rw [show (t2 == "") = false from beq_eq_false_iff_ne.mpr ht2]
    rw [hid, hsnap]
    rfl

/-- Witness for C1 on concrete data: tenant `tenant-beta` requesting
`tenant-acme`'s record gets the plain not-found response. -/
theorem claim_tenant_isolation_witness :
    controllerGetSnapshotById sampleStoreTwoTenants (some "tenant-beta")
      "550e8400-e29b-41d4-a716-446655440001" =
      .notFound "Not found" "Execution protocol not found" :=
  (claim_tenant_isolation sampleStoreTwoTenants "tenant-acme" "tenant-beta"
    sampleRowT1 (by decide) rfl (by decide) (by decide) rfl (by decide)
    (by decide)).2.2

/-- C2: a stored record whose status is not CLOSED is inaccessible: every item
of every polling result has status CLOSED and an id different from that
record's, and both single-record operations on its id return the not-found
value for every tenant. -/
theorem claim_status_filtering (store : Store) (r : ProtocolRow)
    (hmem : r ∈ store.records) (hstat : r.status ≠ "CLOSED")
    (huniq : ∀ r' ∈ store.records, r'.id = r.id → r' = r)
    (hav : store.available = true) :
    (∀ opts res, getAllForPolling store opts = .ok res →
      ∀ p ∈ res.data, p.status = "CLOSED" ∧ p.id ≠ r.id) ∧
    (∀ tid, getById store r.id tid = .ok none) ∧
    (∀ tid, getSnapshotById store r.id tid = .ok none) := by
  have hfind : ∀ tid, findClosedRow store r.id tid = none := by
    intro tid
    apply findClosedRow_none
    intro r' hr' ⟨hid', _, hclosed⟩
    exact hstat ((congrArg ProtocolRow.status
      (huniq r' hr' hid').symm).trans hclosed)
  refine ⟨?_, fun tid => ?_, fun tid => ?_⟩
  · intro opts res hok p hp
    obtain ⟨row, hrowmem, hmatch, hpe⟩ := mem_data_of_getAllForPolling hok hp
    obtain ⟨-, hrowst, -⟩ := matchesPolling_iff.mp hmatch
    subst hpe
    refine ⟨hrowst, fun hpid => ?_⟩
    have : row = r := huniq row hrowmem hpid
    subst this
    exact hstat hrowst
  · rw [getById_ok hav, hfind]; rfl
  · rw [getSnapshotById_ok hav, hfind]; rfl

/-- Witness for C2 on concrete data: the OPEN record's snapshot is not served
even to its own tenant. -/
theorem claim_status_filtering_witness :
    getSnapshotById sampleStoreWithOpen
      "550e8400-e29b-41d4-a716-446655440004" "tenant-acme" = .ok none :=
  (claim_status_filtering sampleStoreWithOpen sampleRowOpen (by decide)
    (by decide) (by decide) rfl).2.2 "tenant-acme"

/-- C3: with a cursor supplied, every returned item has `updatedAt` strictly
greater than the cursor; consequently a second poll over the unchanged store
whose cursor is the maximum `updatedAt` of the first poll's items returns none
of the first poll's items again. -/
theorem claim_cursor_no_redelivery (store : Store) (t : String) :
    (∀ c l o res,
      getAllForPolling store ⟨t, some c, l, o⟩ = .ok res →
      ∀ p ∈ res.data, c < p.updatedAt) ∧
    (∀ ua l₁ o₁ l₂ o₂ res₁ res₂,
      getAllForPolling store ⟨t, ua, l₁, o₁⟩ = .ok res₁ →
      getAllForPolling store ⟨t, some (maxUpdatedAt res₁.data), l₂, o₂⟩ =
        .ok res₂ →
      ∀ p ∈ res₁.data, p ∉ res₂.data) := by
  have strict : ∀ (c : Nat) (l o : Int) res,
      getAllForPolling store ⟨t, some c, l, o⟩ = .ok res →
      ∀ p ∈ res.data, c < p.updatedAt := by
    intro c l o res hok p hp
    obtain ⟨row, -, hmatch, hpe⟩ := mem_data_of_getAllForPolling hok hp
    obtain ⟨-, -, hcur⟩ := matchesPolling_iff.mp hmatch
    subst hpe
    exact hcur c rfl
  refine ⟨strict, ?_⟩
  intro ua l₁ o₁ l₂ o₂ res₁ res₂ h₁ h₂ p hp hp₂
  have hle : p.updatedAt ≤ maxUpdatedAt res₁.data := updatedAt_le_maxUpdatedAt hp
  have hgt : maxUpdatedAt res₁.data < p.updatedAt :=
    strict (maxUpdatedAt res₁.data) l₂ o₂ res₂ h₂ p hp₂
  omega

/-- The first poll's items over `sampleStoreAcme` without a cursor. -/
def samplePollData : List ExecutionProtocol :=
  [.fromRepositoryData sampleRowT1 none, .fromRepositoryData sampleRowT1b none]

/-- Witness for C3 on concrete data: after advancing the cursor to the first
poll's maximum `updatedAt` (20), the record updated at 10 is not re-delivered
(the second poll is empty). -/
theorem claim_cursor_no_redelivery_witness :
    ExecutionProtocol.fromRepositoryData sampleRowT1 none ∉
      (PollResult.mk [] 0).data :=
  (claim_cursor_no_redelivery sampleStoreAcme "tenant-acme").2
    none 50 0 50 0 ⟨samplePollData, 2⟩ ⟨[], 0⟩ (by decide) (by decide)
    (ExecutionProtocol.fromRepositoryData sampleRowT1 none) (by decide)

/-- C7: the `total` of every polling result equals the count of stored rows
matching the tenant + CLOSED + cursor filter, so two calls differing only in
limit/offset report the same `total`. -/
theorem claim_pagination_total (store : Store) (t : String) (ua : Option Nat)
    (l₁ o₁ l₂ o₂ : Int) (res₁ res₂ : PollResult)
    (h₁ : getAllForPolling store ⟨t, ua, l₁, o₁⟩ = .ok res₁)
    (h₂ : getAllForPolling store ⟨t, ua, l₂, o₂⟩ = .ok res₂) :
    res₁.total = (store.records.filter (matchesPolling t ua)).length ∧
    res₁.total = res₂.total := by
  have e₁ := total_of_getAllForPolling h₁
  have e₂ := total_of_getAllForPolling h₂
  exact ⟨e₁, e₁.trans e₂.symm⟩

/-- Witness for C7 on concrete data: `total` is 2 under both `limit=1` and
`limit=50, offset=1`. -/
theorem claim_pagination_total_witness :
    (PollResult.mk [ExecutionProtocol.fromRepositoryData sampleRowT1 none]
        2).total =
      (sampleStoreAcme.records.filter
        (matchesPolling "tenant-acme" none)).length ∧
    (PollResult.mk [ExecutionProtocol.fromRepositoryData sampleRowT1 none]
        2).total =
      (PollResult.mk [ExecutionProtocol.fromRepositoryData sampleRowT1b none]
        2).total :=
  claim_pagination_total sampleStoreAcme "tenant-acme" none 1 0 50 1
    ⟨[.fromRepositoryData sampleRowT1 none], 2⟩
    ⟨[.fromRepositoryData sampleRowT1b none], 2⟩ (by decide) (by decide)

/-- A CLOSED `tenant-acme` record sharing `updated_at = 10` with
`sampleRowT1` but carrying a larger id — a timestamp tie. -/
def sampleRowTie : ProtocolRow :=
  { id := "550e8400-e29b-41d4-a716-446655440005", site_id := "L4",
    plant_id := "T21", tenant_id := "tenant-acme", status := "CLOSED",
    created_at := 0, closed_at := 5, updated_at := 10, snapshot := "doc-5" }

/-- Ordering claimed by the spec — ascending `updatedAt` with a deterministic
tie-break by `id` on equal timestamps.  Modelled from the spec's words, to be
compared with `sqlOrderByUpdatedAt`, the constraint the code's
`ORDER BY updated_at ASC` actually imposes. -/
def specClaimedOrder (result : List ProtocolRow) : Prop :=
  result.Pairwise fun a b =>
    a.updated_at < b.updated_at ∨ (a.updated_at = b.updated_at ∧ a.id < b.id)

/-- A successful list controller response comes from a repository call whose
limit/offset are the normalized request parameters; the items are the
list-metadata projections of the repository data and `total` passes through. -/
theorem controllerGetAllForPolling_ok_inv {parseTs : String → Option Nat}
    {store : Store} {tid : Option String} {q : ListQuery}
    {ms : List ListMetadata} {lim off : Int} {tot : Nat}
    (h : controllerGetAllForPolling parseTs store tid q =
      .ok ms lim off tot) :
    ∃ opts res, getAllForPolling store opts = .ok res ∧
      ms = res.data.map ExecutionProtocol.toListMetadata ∧
      tot = res.total ∧ lim = opts.limit ∧ off = opts.offset ∧
      opts.tenantId = tid.getD "" ∧
      opts.limit = min (jsParseIntOr q.limit 50) 100 ∧
      opts.offset = max (jsParseIntOr q.offset 0) 0 := by
  unfold controllerGetAllForPolling at h
  match tid with
  | none => exact absurd h (by simp)
  | some tname =>
    dsimp only at h
    simp only [Option.getD]
    cases hbe : (tname == "") with
    | true => rw [hbe] at h; exact absurd h (by simp)
    | false =>
      rw [hbe] at h
      simp only [Bool.false_eq_true, if_false] at h
      have hcore : ∀ (cursor : Option Nat),
          (match getAllForPolling store
              { tenantId := tname, updatedAfter := cursor,
                limit := min (jsParseIntOr q.limit 50) 100,
                offset := max (jsParseIntOr q.offset 0) 0 } with
            | .error _ => ListResult.internalError "Internal server error"
                "Failed to retrieve execution protocols"
            | .ok result => ListResult.ok
                (result.data.map ExecutionProtocol.toListMetadata)
                (min (jsParseIntOr q.limit 50) 100)
                (max (jsParseIntOr q.offset 0) 0) result.total) =
            .ok ms lim off tot →
          ∃ opts res, getAllForPolling store opts = .ok res ∧
            ms = res.data.map ExecutionProtocol.toListMetadata ∧
            tot = res.total ∧ lim = opts.limit ∧ off = opts.offset ∧
            opts.tenantId = tname ∧
            opts.limit = min (jsParseIntOr q.limit 50) 100 ∧
            opts.offset = max (jsParseIntOr q.offset 0) 0 := by
        intro cursor hmatch
        cases hrepo : getAllForPolling store
            { tenantId := tname, updatedAfter := cursor,
              limit := min (jsParseIntOr q.limit 50) 100,
              offset := max (jsParseIntOr q.offset 0) 0 } with
        | error e => rw [hrepo] at hmatch; exact absurd hmatch (by simp)
        | ok result =>
          rw [hrepo] at hmatch
          obtain ⟨hms, hlim, hoff, htot⟩ := ListResult.ok.inj hmatch
          exact ⟨_, result, hrepo, hms.symm, htot.symm, hlim.symm,
            hoff.symm, rfl, rfl, rfl⟩
      match hua : q.updatedAfter with
      | none => exact hcore none (by rw [hua] at h; exact h)
      | some s =>
        rw [hua] at h
        dsimp only at h
        cases hse : (s == "") with
        | true => rw [hse] at h; exact hcore none h
        | false =>
          rw [hse] at h
          simp only [Bool.false_eq_true, if_false] at h
          match hts : parseTs s with
          | none => rw [hts] at h; exact absurd h (by simp)
          | some t => rw [hts] at h; exact hcore (some t) h

/-- C4 counterexample: the query's only ordering constraint,
`ORDER BY updated_at ASC` (`sqlOrderByUpdatedAt`), admits a result in which
two records tied on `updatedAt` appear in descending id order — no
deterministic tie-break (e.g. by id) is imposed, so the overall order is not
the fixed total order the claim asserts. -/
theorem claim_ordering_counterexample :
    sqlOrderByUpdatedAt [sampleRowT1, sampleRowTie]
      [sampleRowTie, sampleRowT1] ∧
    ¬ specClaimedOrder [sampleRowTie, sampleRowT1] := by
  refine ⟨⟨List.Perm.swap sampleRowTie sampleRowT1 [], ?_⟩, ?_⟩
  · exact List.pairwise_pair.mpr (by decide)
  · intro hpair
    have := (List.pairwise_pair.mp hpair)
    rcases this with h | ⟨_, h⟩
    · exact absurd h (by decide)
    · rw [String.lt_iff_toList_lt] at h
      exact absurd h (by decide)

/-- C4 (amended): every successful polling result is sorted ascending by
`updatedAt`; the code imposes no tie-break on equal `updatedAt` values (see
the counterexample), so only the non-strict ordering holds. -/
theorem claim_ordering_amended (store : Store) (opts : PollingOptions)
    (res : PollResult) (h : getAllForPolling store opts = .ok res) :
    res.data.Pairwise fun a b => a.updatedAt ≤ b.updatedAt :=
  data_sorted_of_getAllForPolling h

/-- Witness for the amended C4 on concrete data. -/
theorem claim_ordering_amended_witness :
    samplePollData.Pairwise fun a b => a.updatedAt ≤ b.updatedAt :=
  claim_ordering_amended sampleStoreAcme
    { tenantId := "tenant-acme", updatedAfter := none, limit := 50,
      offset := 0 } ⟨samplePollData, 2⟩ (by decide)

/-- C5 counterexample: with `limit=-5`, `parseInt(limit,10) || 50` yields -5
(truthy), `Math.min(-5, 100)` leaves it at -5 — outside `[1,100]`, so the
value is not clamped — and the repository call fails on the negative SQL
`LIMIT`, yielding a 500 response: not the behavior of the default limit 50,
which succeeds. -/
theorem claim_clamping_counterexample :
    controllerGetAllForPolling (fun _ => none) ⟨[], true⟩ (some "t")
      ⟨none, some "-5", none⟩ =
      .internalError "Internal server error"
        "Failed to retrieve execution protocols" ∧
    controllerGetAllForPolling (fun _ => none) ⟨[], true⟩ (some "t")
      ⟨none, none, none⟩ = .ok [] 50 0 0 ∧
    min (jsParseIntOr (some "-5") 50) 100 = -5 := by decide

/-- C5 (amended): a missing limit defaults to 50 (`limit=50` is identical to
omitting it), `limit=500` behaves identically to `limit=100`, `limit=0`
behaves identically to the default (0 is falsy), and `offset=-5` behaves
identically to a missing offset (floored to 0); but a negative limit is NOT
clamped into [1,100] — it is normalized to the negative value itself (e.g.
-5) and handed to the repository. -/
theorem claim_clamping_amended (parseTs : String → Option Nat) (store : Store)
    (tid : Option String) (ua off lim : Option String) :
    controllerGetAllForPolling parseTs store tid ⟨ua, some "500", off⟩ =
      controllerGetAllForPolling parseTs store tid ⟨ua, some "100", off⟩ ∧
    controllerGetAllForPolling parseTs store tid ⟨ua, some "0", off⟩ =
      controllerGetAllForPolling parseTs store tid ⟨ua, none, off⟩ ∧
    controllerGetAllForPolling parseTs store tid ⟨ua, some "50", off⟩ =
      controllerGetAllForPolling parseTs store tid ⟨ua, none, off⟩ ∧
    controllerGetAllForPolling parseTs store tid ⟨ua, lim, some "-5"⟩ =
      controllerGetAllForPolling parseTs store tid ⟨ua, lim, none⟩ ∧
    jsParseIntOr (none : Option String) 50 = 50 ∧
    min (jsParseIntOr (some "-5") 50) 100 = -5 := by
  refine ⟨rfl, rfl, rfl, rfl, rfl, by decide⟩

/-- Witness for the amended C5 at concrete inputs. -/
theorem claim_clamping_amended_witness :
    controllerGetAllForPolling (fun _ => none) sampleStoreAcme
      (some "tenant-acme") ⟨none, some "500", none⟩ =
      controllerGetAllForPolling (fun _ => none) sampleStoreAcme
        (some "tenant-acme") ⟨none, some "100", none⟩ :=
  (claim_clamping_amended (fun _ => none) sampleStoreAcme
    (some "tenant-acme") none none none).1

/-- C6 counterexample: the 200 body of the list endpoint carries its items
under the key `protocols`, not `items` (src controller:
`res.json({ protocols: metadata, pagination: {...} })`). -/
theorem claim_response_shape_counterexample :
    (renderListResult (controllerGetAllForPolling (fun _ => none)
      sampleStoreAcme (some "tenant-acme") ⟨none, none, none⟩)).2.keys =
      ["protocols", "pagination"] ∧
    "items" ∉ (renderListResult (controllerGetAllForPolling (fun _ => none)
      sampleStoreAcme (some "tenant-acme") ⟨none, none, none⟩)).2.keys := by
  decide

/-- C6 (amended): the success body is
`{protocols: ListMetadata[], pagination: {limit, offset, total}}` (key
`protocols`, not `items`), where the items are exactly the
`{id, siteId, plantId, status, closedAt, updatedAt}` projections (snapshot
excluded) of the records returned by the repository, and `total` is the
repository's count. -/
theorem claim_response_shape_amended (parseTs : String → Option Nat)
    (store : Store) (tid : Option String) (q : ListQuery)
    (ms : List ListMetadata) (lim off : Int) (tot : Nat)
    (h : controllerGetAllForPolling parseTs store tid q =
      .ok ms lim off tot) :
    renderListResult (.ok ms lim off tot) =
      (200, .obj [("protocols", .arr (ms.map ListMetadata.toJson)),
        ("pagination", .obj [("limit", .num lim), ("offset", .num off),
          ("total", .num (tot : Int))])]) ∧
    (∃ opts res, getAllForPolling store opts = .ok res ∧
      ms = res.data.map ExecutionProtocol.toListMetadata ∧
      tot = res.total) ∧
    ∀ m ∈ ms, (ListMetadata.toJson m).keys =
      ["id", "siteId", "plantId", "status", "closedAt", "updatedAt"] := by
  obtain ⟨opts, res, hrepo, hms, htot, -⟩ :=
    controllerGetAllForPolling_ok_inv h
  exact ⟨rfl, ⟨opts, res, hrepo, hms, htot⟩, fun m _ => rfl⟩

/-- Witness for the amended C6 at a concrete successful request. -/
theorem claim_response_shape_amended_witness :
    renderListResult (.ok (samplePollData.map
        ExecutionProtocol.toListMetadata) 50 0 2) =
      (200, .obj [("protocols", .arr ((samplePollData.map
          ExecutionProtocol.toListMetadata).map ListMetadata.toJson)),
        ("pagination", .obj [("limit", .num 50), ("offset", .num 0),
          ("total", .num (2 : Int))])]) ∧
    (∃ opts res, getAllForPolling sampleStoreAcme opts = .ok res ∧
      samplePollData.map ExecutionProtocol.toListMetadata =
        res.data.map ExecutionProtocol.toListMetadata ∧
      2 = res.total) ∧
    ∀ m ∈ samplePollData.map ExecutionProtocol.toListMetadata,
      (ListMetadata.toJson m).keys =
        ["id", "siteId", "plantId", "status", "closedAt", "updatedAt"] :=
  claim_response_shape_amended (fun _ => none) sampleStoreAcme
    (some "tenant-acme") ⟨none, none, none⟩
    (samplePollData.map ExecutionProtocol.toListMetadata) 50 0 2 (by decide)

/-- C8 counterexample: the 404 for the malformed id `"not-a-uuid"` and the
404 for a well-formed but absent id share status and error kind but carry
different messages ("Invalid protocol ID format" vs "Execution protocol not
found"), so the two responses are distinguishable — the claimed
indistinguishability fails. -/
theorem claim_malformed_id_counterexample :
    controllerGetSnapshotById ⟨[], true⟩ (some "t") "not-a-uuid" =
      .notFound "Not found" "Invalid protocol ID format" ∧
    controllerGetSnapshotById ⟨[], true⟩ (some "t")
      "550e8400-e29b-41d4-a716-446655440001" =
      .notFound "Not found" "Execution protocol not found" ∧
    controllerGetSnapshotById ⟨[], true⟩ (some "t") "not-a-uuid" ≠
      controllerGetSnapshotById ⟨[], true⟩ (some "t")
        "550e8400-e29b-41d4-a716-446655440001" := by decide

/-- C8 (amended): a snapshot request whose id fails the UUID v4 check gets
the NotFound outcome (status 404) — never BadRequest (the handler has no 400
branch) and never InternalError, for every store state, since validation
precedes the repository call; the status and error kind coincide with the
genuine not-found response but the message differs ("Invalid protocol ID
format"). -/
theorem claim_malformed_id_amended (store : Store) (tname id : String)
    (htid : tname ≠ "") (hid : isValidUUID id = false) :
    controllerGetSnapshotById store (some tname) id =
      .notFound "Not found" "Invalid protocol ID format" ∧
    (controllerGetSnapshotById store (some tname) id).statusCode = 404 := by
  have hbe : (tname == "") = false := beq_eq_false_iff_ne.mpr htid
  have hres : controllerGetSnapshotById store (some tname) id =
      .notFound "Not found" "Invalid protocol ID format" := by
    unfold controllerGetSnapshotById
    dsimp only
    rw [hbe, hid]
    rfl
  exact ⟨hres, by rw [hres]; rfl⟩

/-- Witness for the amended C8: `"not-a-uuid"` against an unavailable store
still yields 404, not 500. -/
theorem claim_malformed_id_amended_witness :
    controllerGetSnapshotById ⟨[], false⟩ (some "t") "not-a-uuid" =
      .notFound "Not found" "Invalid protocol ID format" :=
  (claim_malformed_id_amended ⟨[], false⟩ "t" "not-a-uuid" (by decide)
    (by decide)).1

/-- C9 counterexample: an empty-string `updatedAfter` is present in the
request and is not a parsable timestamp (`new Date("")` is invalid), yet the
controller does not reject it with BadRequest — the JS truthiness check
`if (updatedAfter)` silently treats it as an absent cursor and the request
succeeds. -/
theorem claim_cursor_validation_counterexample :
    (ListQuery.updatedAfter ⟨some "", none, none⟩).isSome = true ∧
    (fun (_ : String) => (none : Option Nat)) "" = none ∧
    controllerGetAllForPolling (fun _ => none) ⟨[], true⟩ (some "t")
      ⟨some "", none, none⟩ = .ok [] 50 0 0 := by decide

/-- C9 (amended): for an authorized request, the list operation fails with
BadRequest iff `updatedAfter` is present, NON-EMPTY and unparsable — an
empty-string cursor is silently treated as absent; when the cursor is
rejected the response does not depend on the store (it is produced before
any repository access). -/
theorem claim_cursor_validation_amended (parseTs : String → Option Nat)
    (store store' : Store) (tname : String) (q : ListQuery)
    (htid : tname ≠ "") :
    (controllerGetAllForPolling parseTs store (some tname) q =
        .badRequest "Bad request" badCursorMessage ↔
      ∃ s, q.updatedAfter = some s ∧ s ≠ "" ∧ parseTs s = none) ∧
    ((∃ s, q.updatedAfter = some s ∧ s ≠ "" ∧ parseTs s = none) →
      controllerGetAllForPolling parseTs store (some tname) q =
        controllerGetAllForPolling parseTs store' (some tname) q) := by
  have hbe : (tname == "") = false := beq_eq_false_iff_ne.mpr htid
  have reject : ∀ (st : Store) (s : String), q.updatedAfter = some s →
      s ≠ "" → parseTs s = none →
      controllerGetAllForPolling parseTs st (some tname) q =
        .badRequest "Bad request" badCursorMessage := by
    intro st s hua hne hts
    unfold controllerGetAllForPolling
    dsimp only
    rw [hbe, hua]
    dsimp only
    rw [show (s == "") = false from beq_eq_false_iff_ne.mpr hne, hts]
    rfl
  refine ⟨⟨?_, fun ⟨s, hua, hne, hts⟩ => reject store s hua hne hts⟩,
    fun ⟨s, hua, hne, hts⟩ =>
      (reject store s hua hne hts).trans
        (reject store' s hua hne hts).symm⟩
  intro hbad
  unfold controllerGetAllForPolling at hbad
  dsimp only at hbad
  rw [hbe] at hbad
  simp only [Bool.false_eq_true, if_false] at hbad
  have norepo : ∀ (cursor : Option Nat),
      (match getAllForPolling store
          { tenantId := tname, updatedAfter := cursor,
            limit := min (jsParseIntOr q.limit 50) 100,
            offset := max (jsParseIntOr q.offset 0) 0 } with
        | .error _ => ListResult.internalError "Internal server error"
            "Failed to retrieve execution protocols"
        | .ok result => ListResult.ok
            (result.data.map ExecutionProtocol.toListMetadata)
            (min (jsParseIntOr q.limit 50) 100)
            (max (jsParseIntOr q.offset 0) 0) result.total) ≠
        .badRequest "Bad request" badCursorMessage := by
    intro cursor
    cases hr : getAllForPolling store
        { tenantId := tname, updatedAfter := cursor,
          limit := min (jsParseIntOr q.limit 50) 100,
          offset := max (jsParseIntOr q.offset 0) 0 } <;> simp
  match hua : q.updatedAfter with
  | none =>
    rw [hua] at hbad
    exact absurd hbad (norepo none)
  | some s =>
    rw [hua] at hbad
    dsimp only at hbad
    cases hse : (s == "") with
    | true =>
      rw [hse] at hbad
      exact absurd hbad (norepo none)
    | false =>
      rw [hse] at hbad
      simp only [Bool.false_eq_true, if_false] at hbad
      match hts : parseTs s with
      | none => exact ⟨s, rfl, beq_eq_false_iff_ne.mp hse, hts⟩
      | some t =>
        rw [hts] at hbad
        exact absurd hbad (norepo (some t))

/-- Witness for the amended C9: a rejected cursor gives the same response
over two different stores. -/
theorem claim_cursor_validation_amended_witness :
    controllerGetAllForPolling (fun _ => none) ⟨[], true⟩ (some "t")
      ⟨some "x", none, none⟩ =
      controllerGetAllForPolling (fun _ => none) sampleStoreAcme (some "t")
        ⟨some "x", none, none⟩ :=
  (claim_cursor_validation_amended (fun _ => none) ⟨[], true⟩ sampleStoreAcme
    "t" ⟨some "x", none, none⟩ (by decide)).2 ⟨"x", rfl, by decide, rfl⟩

/-- C10 counterexample: when the repository call itself fails (unavailable
storage), the two handlers respond with the same 500 status but different
bodies — the messages "Failed to retrieve execution protocol" and
"Failed to retrieve execution protocol snapshot" differ — so the responses
are not identical for every request and repository state. -/
theorem claim_handlers_counterexample :
    controllerGetById ⟨[], false⟩ (some "t")
      "550e8400-e29b-41d4-a716-446655440001" =
      .internalError "Internal server error"
        "Failed to retrieve execution protocol" ∧
    controllerGetSnapshotById ⟨[], false⟩ (some "t")
      "550e8400-e29b-41d4-a716-446655440001" =
      .internalError "Internal server error"
        "Failed to retrieve execution protocol snapshot" ∧
    controllerGetById ⟨[], false⟩ (some "t")
      "550e8400-e29b-41d4-a716-446655440001" ≠
      controllerGetSnapshotById ⟨[], false⟩ (some "t")
        "550e8400-e29b-41d4-a716-446655440001" := by decide

/-- C10 (amended): for every request the two handlers produce the same status
outcome, and whenever the repository call does not fail (available store)
their responses are identical — both perform the same tenant and UUID checks
and both delegate to the repository's `getSnapshotById`; they differ only in
the InternalError message emitted when the storage call fails. -/
theorem claim_handlers_amended (store : Store) (tid : Option String)
    (id : String) :
    (controllerGetById store tid id).statusCode =
      (controllerGetSnapshotById store tid id).statusCode ∧
    (store.available = true →
      controllerGetById store tid id = controllerGetSnapshotById store tid id)
    := by
  rcases tid with _ | tname
  · exact ⟨rfl, fun _ => rfl⟩
  · unfold controllerGetById controllerGetSnapshotById
    dsimp only
    cases hbe : (tname == "") with
    | true => exact ⟨rfl, fun _ => rfl⟩
    | false =>
      cases hvu : isValidUUID id with
      | false => exact ⟨rfl, fun _ => rfl⟩
      | true =>
        rcases hr : getSnapshotById store id tname with e | o
        · refine ⟨rfl, fun hav => ?_⟩
          rw [getSnapshotById_ok hav] at hr
          exact absurd hr (by simp)
        · rcases o with _ | snap
          · exact ⟨rfl, fun _ => rfl⟩
          · exact ⟨rfl, fun _ => rfl⟩

/-- Witness for the amended C10: on an available store the two handlers give
literally the same response. -/
theorem claim_handlers_amended_witness :
    controllerGetById sampleStoreAcme (some "tenant-acme")
      "550e8400-e29b-41d4-a716-446655440001" =
      controllerGetSnapshotById sampleStoreAcme (some "tenant-acme")
        "550e8400-e29b-41d4-a716-446655440001" :=
  (claim_handlers_amended sampleStoreAcme (some "tenant-acme")
    "550e8400-e29b-41d4-a716-446655440001").2 rfl

end RestApi
